import Mathlib

/-!
Verification development for the ollama-connector repository.

The definitions below are shallow embeddings of the Python source:
pure functions are translated directly, stateful endpoints become
functions from explicit inputs (payload, transport peer address,
registry state, clock) to results and updated state.  Python
truthiness of optional strings/lists/dicts is modelled explicitly.
-/

namespace OllamaConn

/-- Python truthiness of an optional string: `None` and `""` are falsy. -/
def pyTruthy : Option String → Bool
  | none => false
  | some s => !(s == "")

/-- Python truthiness of an optional list: `None` and `[]` are falsy. -/
def listTruthy : Option (List String) → Bool
  | none => false
  | some l => !l.isEmpty

/-- Connector row, from `src/backend/app/models/connector.py` (the fields the
core reads; JSONB list columns are nullable, hence `Option`). -/
structure Connector where
  id : String
  allowed_models : Option (List String)
  blocked_models : Option (List String)
  priority : Int
  routing_prefer : Option String
  routing_fallback : Option String
  routing_ollama_only : Bool
  routing_cloud_only : Bool
  rate_limit_per_minute : Int
  rate_limit_per_hour : Int

/-- The allow-phase of `is_model_allowed` (`src/backend/app/services/auth.py`,
lines 57-61): `allowed = connector.allowed_models or ["*"]`, then `"*" in
allowed` grants everything, else membership. -/
def allowPhase (c : Connector) (m : String) : Bool :=
  let allowed := if listTruthy c.allowed_models then c.allowed_models.getD [] else ["*"]
  if "*" ∈ allowed then true else m ∈ allowed

/-- Embedding of `is_model_allowed` from `src/backend/app/services/auth.py`:
the blocked list is consulted first (under Python truthiness of the
nullable column), then the allow list with `or ["*"]` defaulting. -/
def is_model_allowed (c : Connector) (m : String) : Bool :=
  if listTruthy c.blocked_models ∧ m ∈ c.blocked_models.getD [] then false
  else allowPhase c m

/-- A concrete connector used to instantiate universally quantified theorems. -/
def connStarAllow : Connector :=
  { id := "c1", allowed_models := some ["*"], blocked_models := some ["bad", "*"]
    priority := 5, routing_prefer := some "ollama", routing_fallback := some "openrouter"
    routing_ollama_only := false, routing_cloud_only := false
    rate_limit_per_minute := 60, rate_limit_per_hour := 1000 }

/-- A connector with a null allow list. -/
def connNullAllow : Connector :=
  { id := "c2", allowed_models := none, blocked_models := some ["bad"]
    priority := 5, routing_prefer := none, routing_fallback := none
    routing_ollama_only := false, routing_cloud_only := false
    rate_limit_per_minute := 60, rate_limit_per_hour := 1000 }

/-- C8: a blocked model is refused even when `allowed_models` holds `"*"`;
`"*"` in `allowed_models` grants every non-blocked model; and the blocked
list only ever refuses its literal members, so `"*"` in `blocked_models`
blocks only the model literally named `"*"` (any non-member is decided by
the allow phase alone). -/
theorem C8_block_absolute_star_literal (c : Connector) (m : String) :
    (m ∈ c.blocked_models.getD [] → is_model_allowed c m = false) ∧
    ("*" ∈ c.allowed_models.getD [] → m ∉ c.blocked_models.getD [] →
      is_model_allowed c m = true) ∧
    (m ∉ c.blocked_models.getD [] → is_model_allowed c m = allowPhase c m) := by
  refine ⟨?_, ?_, ?_⟩
  · intro hm
    have hne : c.blocked_models.getD [] ≠ [] := by
      intro h
      rw [h] at hm
      exact List.not_mem_nil m hm
    have ht : listTruthy c.blocked_models = true := by
      cases hb : c.blocked_models with
      | none => rw [hb] at hne; simp at hne
      | some l =>
        rw [hb] at hne
        simp only [Option.getD_some] at hne
        simp [listTruthy, List.isEmpty_iff, hne]
    simp [is_model_allowed, ht, hm]
  · intro hstar hnm
    have hall : listTruthy c.allowed_models = true := by
      cases ha : c.allowed_models with
      | none => rw [ha] at hstar; simp at hstar
      | some l =>
        rw [ha] at hstar
        simp only [Option.getD_some] at hstar
        have : l ≠ [] := fun h => by rw [h] at hstar; exact List.not_mem_nil _ hstar
        simp [listTruthy, List.isEmpty_iff, this]
    have : allowPhase c m = true := by
      simp only [allowPhase, hall, if_true]
      simp [hstar]
    simp [is_model_allowed, hnm, this]
  · intro hnm
    simp [is_model_allowed, hnm]

/-- Witness for C8 at a concrete connector: `"bad"` is blocked despite the
star allow list. -/
theorem C8_block_absolute_star_literal_witness :
    is_model_allowed connStarAllow "bad" = false :=
  (C8_block_absolute_star_literal connStarAllow "bad").1 (by decide)

/-- C10: a null or empty `allowed_models` is replaced by `["*"]`, so every
model outside the blocked list is permitted. -/
theorem C10_null_allow_list_grants_all (c : Connector) (m : String)
    (h : c.allowed_models = none ∨ c.allowed_models = some [])
    (hb : m ∉ c.blocked_models.getD []) :
    is_model_allowed c m = true := by
  have hfalse : listTruthy c.allowed_models = false := by
    rcases h with h | h <;> simp [listTruthy, h]
  have : allowPhase c m = true := by
    simp [allowPhase, hfalse]
  simp [is_model_allowed, hb, this]

/-- Witness for C10 at a concrete connector with a null allow list. -/
theorem C10_null_allow_list_grants_all_witness :
    is_model_allowed connNullAllow "llama3" = true :=
  C10_null_allow_list_grants_all connNullAllow "llama3" (Or.inl rfl) (by decide)

/-- Embedding of `SmartRouter._get_provider_order` from
`src/backend/app/services/router.py` (lines 86-107): the ollama-only flag
wins outright; the cloud-only flag keeps an explicit openrouter preference
and otherwise forces `"openrouter"`; else the (truthiness-defaulted)
preferred provider is followed by the fallback when the fallback is truthy
and different. -/
def get_provider_order (c : Connector) : List String :=
  if c.routing_ollama_only then ["ollama"]
  else if c.routing_cloud_only then
    if c.routing_prefer = some "openrouter" ∨ c.routing_prefer = some "openrouter:free" then
      [c.routing_prefer.getD ""]
    else ["openrouter"]
  else
    let prefer := if pyTruthy c.routing_prefer then c.routing_prefer.getD "" else "ollama"
    if pyTruthy c.routing_fallback ∧ c.routing_fallback.getD "" ≠ prefer then
      [prefer, c.routing_fallback.getD ""]
    else [prefer]

/-- C4: with `routing_prefer` drawn from the spec's provider domain
(`"ollama"` = local, `"openrouter"` = cloud, `"openrouter:free"` =
cloud-free-only), the provider order is `[ollama]` under the local-only
flag (even when both flags are set), `[prefer]` under cloud-only with a
cloud preference, `[openrouter]` under cloud-only with a local preference,
and otherwise `[prefer]` with the fallback appended exactly when the
fallback is present (truthy) and differs from the preference. -/
theorem C4_provider_order (c : Connector)
    (hp : c.routing_prefer = some "ollama" ∨ c.routing_prefer = some "openrouter" ∨
      c.routing_prefer = some "openrouter:free") :
    (c.routing_ollama_only = true → get_provider_order c = ["ollama"]) ∧
    (c.routing_ollama_only = false → c.routing_cloud_only = true →
      ((c.routing_prefer = some "openrouter" ∨ c.routing_prefer = some "openrouter:free") →
        get_provider_order c = [c.routing_prefer.getD ""]) ∧
      (c.routing_prefer = some "ollama" → get_provider_order c = ["openrouter"])) ∧
    (c.routing_ollama_only = false → c.routing_cloud_only = false →
      get_provider_order c =
        [c.routing_prefer.getD ""] ++
          (if pyTruthy c.routing_fallback ∧
              c.routing_fallback.getD "" ≠ c.routing_prefer.getD "" then
            [c.routing_fallback.getD ""] else [])) := by
  refine ⟨?_, ?_, ?_⟩
  · intro h1
    simp [get_provider_order, h1]
  · intro h1 h2
    constructor
    · intro hpref
      simp [get_provider_order, h1, h2, hpref]
    · intro hpref
      have hne1 : ¬ c.routing_prefer = some "openrouter" := by simp [hpref]
      have hne2 : ¬ c.routing_prefer = some "openrouter:free" := by simp [hpref]
      simp [get_provider_order, h1, h2, hne1, hne2]
  · intro h1 h2
    have htruthy : pyTruthy c.routing_prefer = true := by
      rcases hp with h | h | h <;> simp [pyTruthy, h]
    simp only [get_provider_order, h1, h2, if_false, Bool.false_eq_true, htruthy, if_true]
    rcases hp with h | h | h <;>
      (simp only [h, Option.getD_some]; split <;> simp)

/-- Witness for C4 at a concrete connector: `prefer=ollama`,
`fallback=openrouter`, no flags. -/
theorem C4_provider_order_witness :
    get_provider_order connStarAllow = ["ollama", "openrouter"] := by
  have h := (C4_provider_order connStarAllow (Or.inl rfl)).2.2 rfl rfl
  rw [h]
  decide

/-- Redis `ZREMRANGEBYSCORE key lo hi`: drop every member whose score lies
in `[lo, hi]`.  The rate-limiter's sorted sets use `str(score)` as the
member, so a set is modelled as its list of distinct scores. -/
def zremrangebyscore (s : List Int) (lo hi : Int) : List Int :=
  s.filter (fun x => !(decide (lo ≤ x ∧ x ≤ hi)))

/-- Redis `ZADD key {str(x): x}`: upsert of the member for score `x`. -/
def zadd (s : List Int) (x : Int) : List Int :=
  if x ∈ s then s else s ++ [x]

/-- The per-connector slice of the external store touched by
`check_rate_limit`: the two sliding windows and their key TTLs. -/
structure RateLimitState where
  minute : List Int
  hour : List Int
  minute_ttl : Option Int
  hour_ttl : Option Int
  deriving DecidableEq

/-- The info dictionary returned by `check_rate_limit`. -/
structure RateLimitInfo where
  minute_remaining : Int
  hour_remaining : Int
  minute_reset : Int
  hour_reset : Int
  deriving DecidableEq

/-- Embedding of `check_rate_limit` from
`src/backend/app/services/rate_limiter.py` (lines 27-84): trim both
windows, count, admit iff both counts are under their limits, and insert
the current timestamp plus refresh the TTLs only when admitted. -/
def check_rate_limit (st : RateLimitState) (now limit_per_minute limit_per_hour : Int) :
    Bool × RateLimitInfo × RateLimitState :=
  let minute1 := zremrangebyscore st.minute 0 (now - 60)
  let hour1 := zremrangebyscore st.hour 0 (now - 3600)
  let minute_count : Int := minute1.length
  let hour_count : Int := hour1.length
  let is_allowed := decide (minute_count < limit_per_minute ∧ hour_count < limit_per_hour)
  let info : RateLimitInfo :=
    { minute_remaining := max 0 (limit_per_minute - minute_count - 1)
      hour_remaining := max 0 (limit_per_hour - hour_count - 1)
      minute_reset := now + 60
      hour_reset := now + 3600 }
  if is_allowed then
    (true, info,
      { minute := zadd minute1 now, hour := zadd hour1 now
        minute_ttl := some 120, hour_ttl := some 7200 })
  else
    (false, info,
      { minute := minute1, hour := hour1
        minute_ttl := st.minute_ttl, hour_ttl := st.hour_ttl })

/-- The score being upserted is a member of the resulting sorted set. -/
theorem mem_zadd_self (s : List Int) (x : Int) : x ∈ zadd s x := by
  unfold zadd
  split
  · assumption
  · simp

/-- C3: after trimming scores at least a window old, the request is allowed
iff both trimmed counts are strictly under their limits; exactly when
allowed, the current timestamp is inserted into both windows and the TTLs
are refreshed to `120` and `7200`; when denied, the store keeps only the
trims; and the returned info carries `limit − count − 1` (clamped at zero)
and resets `now + 60` / `now + 3600`. -/
theorem C3_rate_limit_check (st : RateLimitState) (now m h : Int) :
    ((check_rate_limit st now m h).1 = true ↔
        ((zremrangebyscore st.minute 0 (now - 60)).length : Int) < m ∧
          ((zremrangebyscore st.hour 0 (now - 3600)).length : Int) < h) ∧
    ((check_rate_limit st now m h).1 = true →
      (check_rate_limit st now m h).2.2 =
        { minute := zadd (zremrangebyscore st.minute 0 (now - 60)) now
          hour := zadd (zremrangebyscore st.hour 0 (now - 3600)) now
          minute_ttl := some 120, hour_ttl := some 7200 } ∧
      now ∈ (check_rate_limit st now m h).2.2.minute ∧
      now ∈ (check_rate_limit st now m h).2.2.hour) ∧
    ((check_rate_limit st now m h).1 = false →
      (check_rate_limit st now m h).2.2 =
        { minute := zremrangebyscore st.minute 0 (now - 60)
          hour := zremrangebyscore st.hour 0 (now - 3600)
          minute_ttl := st.minute_ttl, hour_ttl := st.hour_ttl }) ∧
    (check_rate_limit st now m h).2.1 =
      { minute_remaining := max 0 (m - ((zremrangebyscore st.minute 0 (now - 60)).length : Int) - 1)
        hour_remaining := max 0 (h - ((zremrangebyscore st.hour 0 (now - 3600)).length : Int) - 1)
        minute_reset := now + 60, hour_reset := now + 3600 } := by
  by_cases hc : ((zremrangebyscore st.minute 0 (now - 60)).length : Int) < m ∧
      ((zremrangebyscore st.hour 0 (now - 3600)).length : Int) < h
  · refine ⟨by simp [check_rate_limit, hc], ?_, ?_, by simp [check_rate_limit, hc]⟩
    · intro _
      refine ⟨by simp [check_rate_limit, hc], ?_, ?_⟩ <;>
        simp [check_rate_limit, hc, mem_zadd_self]
    · intro hfalse
      rw [show (check_rate_limit st now m h).1 = true by simp [check_rate_limit, hc]] at hfalse
      cases hfalse
  · refine ⟨by simp [check_rate_limit, hc], ?_, ?_, by simp [check_rate_limit, hc]⟩
    · intro htrue
      rw [show (check_rate_limit st now m h).1 = false by simp [check_rate_limit, hc]] at htrue
      cases htrue
    · intro _
      simp [check_rate_limit, hc]

/-- Witness for C3 at a concrete store state: two fresh entries against a
minute limit of `3` admit the request, insert score `70`, and refresh the
TTLs. -/
theorem C3_rate_limit_check_witness :
    (check_rate_limit ⟨[50, 65], [50, 65], none, none⟩ 70 3 10).1 = true ∧
    (check_rate_limit ⟨[50, 65], [50, 65], none, none⟩ 70 3 10).2.2 =
      ⟨[50, 65, 70], [50, 65, 70], some 120, some 7200⟩ := by
  have h := C3_rate_limit_check ⟨[50, 65], [50, 65], none, none⟩ 70 3 10
  have hall : (check_rate_limit ⟨[50, 65], [50, 65], none, none⟩ 70 3 10).1 = true :=
    h.1.mpr (by decide)
  refine ⟨hall, ?_⟩
  rw [(h.2.1 hall).1]
  decide

/-- The three connection strategies of the server dispatcher
(`src/server/app.py`, `dispatch_to_node`). -/
inductive Strategy
  | cloudflare
  | ipv4
  | ipv6
  deriving DecidableEq

/-- Snapshot of a node's addresses as `dispatch_to_node` reads them:
`cloudflare_url` through `getattr(..., None)`, the raw addresses from the
record fields. -/
structure NodeSnapshot where
  node_id : String
  cloudflare_url : Option String
  ipv4 : Option String
  ipv6 : Option String
  port : Int

/-- Python whitespace as recognised by `str.strip()`. -/
def pyIsSpace (c : Char) : Bool :=
  c == ' ' || c == '\t' || c == '\n' || c == '\r'

/-- Python truthiness of `s.strip()`: the string has some non-whitespace
character. -/
def pyStripNonempty (s : String) : Bool :=
  s.data.any (fun c => !pyIsSpace c)

/-- The dispatcher's check on the tunnel URL
(`cf_url and isinstance(cf_url, str) and cf_url.strip()`): present and not
blank. -/
def cfTruthy : Option String → Bool
  | none => false
  | some s => pyStripNonempty s

/-- Availability of each strategy in a snapshot, per the checks of
`dispatch_to_node` (lines 272-288). -/
def strategyAvailable (n : NodeSnapshot) : Strategy → Bool
  | .cloudflare => cfTruthy n.cloudflare_url
  | .ipv4 => pyTruthy n.ipv4
  | .ipv6 => pyTruthy n.ipv6

/-- The strategy list built fresh inside every `dispatch_to_node` call
(lines 269-288): cloudflare, then ipv4, then ipv6, each included iff
available in the snapshot. -/
def connection_strategies (n : NodeSnapshot) : List Strategy :=
  (if cfTruthy n.cloudflare_url then [Strategy.cloudflare] else []) ++
    ((if pyTruthy n.ipv4 then [Strategy.ipv4] else []) ++
      (if pyTruthy n.ipv6 then [Strategy.ipv6] else []))

/-- Per-node health counters and status, the mutable part of the server's
`NodeState`. -/
structure NodeCounters where
  active_jobs : Int
  failure_count : Int
  status : String
  deriving DecidableEq

/-- `NODE_MAX_FAILURES` default from `src/server/app.py` line 28. -/
def NODE_MAX_FAILURES : Int := 3

/-- `mark_job_start` (`src/server/app.py` lines 188-192). -/
def mark_job_start (c : NodeCounters) : NodeCounters :=
  { c with active_jobs := c.active_jobs + 1 }

/-- `mark_job_end` (lines 194-208): decrement `active_jobs` clamped at
zero; on success reset `failure_count` and force the status online; on
failure increment `failure_count` and degrade at the threshold. -/
def mark_job_end (c : NodeCounters) (success : Bool) : NodeCounters :=
  let c1 := { c with active_jobs := max (c.active_jobs - 1) 0 }
  if success then
    { c1 with failure_count := 0, status := "online" }
  else
    let c2 := { c1 with failure_count := c1.failure_count + 1 }
    if NODE_MAX_FAILURES ≤ c2.failure_count then { c2 with status := "degraded" } else c2

/-- Outcome of one POST to a node: a transport-level exception or an HTTP
response with a status code. -/
inductive AttemptOutcome
  | transportError
  | response (status : Int)

/-- Whether an attempt outcome is a 2xx success (line 324). -/
def outcomeSuccess : AttemptOutcome → Bool
  | .transportError => false
  | .response st => decide (200 ≤ st ∧ st < 300)

/-- One dispatch call's loop over the strategy list (lines 296-350): each
attempt brackets the POST with `mark_job_start` / `mark_job_end` and moves
to the next strategy on failure, returning on the first 2xx.  Yields the
final counters, the successful status code if any, and the strategies
actually attempted in order. -/
def run_attempts (outcome : Strategy → AttemptOutcome) :
    List Strategy → NodeCounters → NodeCounters × Option Int × List Strategy
  | [], c => (c, none, [])
  | s :: rest, c =>
    let c1 := mark_job_start c
    match outcome s with
    | .transportError =>
      let c2 := mark_job_end c1 false
      let r := run_attempts outcome rest c2
      (r.1, r.2.1, s :: r.2.2)
    | .response st =>
      if 200 ≤ st ∧ st < 300 then
        (mark_job_end c1 true, some st, [s])
      else
        let c2 := mark_job_end c1 false
        let r := run_attempts outcome rest c2
        (r.1, r.2.1, s :: r.2.2)

/-- Health-accounting model of one `dispatch_to_node` call: build the
fresh strategy list from the current snapshot, then run the attempt loop
against it. -/
def dispatch_to_node (n : NodeSnapshot) (c : NodeCounters)
    (outcome : Strategy → AttemptOutcome) : NodeCounters × Option Int × List Strategy :=
  run_attempts outcome (connection_strategies n) c

/-- The attempt loop tries strategies strictly in list order: the attempted
strategies are the failing front of the list followed by the first
success, when one exists. -/
theorem run_attempts_tried (outcome : Strategy → AttemptOutcome) (l : List Strategy) :
    ∀ c, (run_attempts outcome l c).2.2 =
      l.takeWhile (fun s => !outcomeSuccess (outcome s)) ++
        (l.dropWhile (fun s => !outcomeSuccess (outcome s))).take 1 := by
  induction l with
  | nil => intro c; simp [run_attempts]
  | cons s t ih =>
    intro c
    cases hs : outcome s with
    | transportError =>
      simp [run_attempts, hs, List.takeWhile_cons, List.dropWhile_cons, outcomeSuccess, ih]
    | response st =>
      by_cases h2 : 200 ≤ st ∧ st < 300
      · simp [run_attempts, hs, h2, List.takeWhile_cons, List.dropWhile_cons, outcomeSuccess]
      · have hcond : st < 200 ∨ 300 ≤ st := by omega
        simp [run_attempts, hs, h2, List.takeWhile_cons, List.dropWhile_cons, outcomeSuccess,
          ih, hcond]

/-- C2: the strategy list is exactly the fixed order cloudflare-tunnel,
ipv4, ipv6 filtered to the addresses available in the snapshot — a pure
function of the snapshot alone, so it is recomputed identically for each
call whatever earlier outcomes were — and the dispatch loop attempts
exactly the failing front of that list followed by its first success, so a
later strategy is attempted only after every earlier available one has
failed. -/
theorem C2_strategy_order (n : NodeSnapshot) (c : NodeCounters)
    (outcome : Strategy → AttemptOutcome) :
    connection_strategies n =
      [Strategy.cloudflare, Strategy.ipv4, Strategy.ipv6].filter (strategyAvailable n) ∧
    (dispatch_to_node n c outcome).2.2 =
      (connection_strategies n).takeWhile (fun s => !outcomeSuccess (outcome s)) ++
        ((connection_strategies n).dropWhile (fun s => !outcomeSuccess (outcome s))).take 1 := by
  constructor
  · cases hcf : cfTruthy n.cloudflare_url <;>
      cases h4 : pyTruthy n.ipv4 <;>
        cases h6 : pyTruthy n.ipv6 <;>
          simp [connection_strategies, strategyAvailable, hcf, h4, h6]
  · exact run_attempts_tried outcome (connection_strategies n) c

/-- A non-negative `active_jobs` is restored by the attempt loop: every
attempt adds one and removes one. -/
theorem run_attempts_active_balanced (outcome : Strategy → AttemptOutcome)
    (l : List Strategy) :
    ∀ c : NodeCounters, 0 ≤ c.active_jobs →
      (run_attempts outcome l c).1.active_jobs = c.active_jobs := by
  induction l with
  | nil => intro c _; simp [run_attempts]
  | cons s t ih =>
    intro c hc
    have hstep : ∀ b, (mark_job_end (mark_job_start c) b).active_jobs = c.active_jobs := by
      intro b
      cases b <;> simp only [mark_job_end, mark_job_start] <;> simp
      · split <;> simp <;> omega
      · omega
    cases hs : outcome s with
    | transportError =>
      simp only [run_attempts, hs]
      rw [ih _ (by rw [hstep false]; exact hc)]
      exact hstep false
    | response st =>
      by_cases h2 : 200 ≤ st ∧ st < 300
      · simp only [run_attempts, hs, h2, if_true]
        exact hstep true
      · simp only [run_attempts, hs, h2, if_false]
        rw [ih _ (by rw [hstep false]; exact hc)]
        exact hstep false

/-- Failure accounting of the attempt loop: when no strategy succeeds the
failure counter grows by one per attempted strategy, and a success resets
it to zero. -/
theorem run_attempts_failures (outcome : Strategy → AttemptOutcome) (l : List Strategy) :
    ∀ c : NodeCounters,
      ((run_attempts outcome l c).2.1 = none →
        (run_attempts outcome l c).1.failure_count =
          c.failure_count + (run_attempts outcome l c).2.2.length) ∧
      (∀ st, (run_attempts outcome l c).2.1 = some st →
        (run_attempts outcome l c).1.failure_count = 0) := by
  induction l with
  | nil => intro c; simp [run_attempts]
  | cons s t ih =>
    intro c
    have hfailstep : (mark_job_end (mark_job_start c) false).failure_count =
        c.failure_count + 1 := by
      simp only [mark_job_end, mark_job_start]
      simp
      split <;> simp
    cases hs : outcome s with
    | transportError =>
      constructor
      · intro hnone
        simp only [run_attempts, hs] at hnone ⊢
        rw [(ih _).1 hnone, hfailstep]
        simp only [List.length_cons]
        push_cast
        ring
      · intro st hsome
        simp only [run_attempts, hs] at hsome ⊢
        exact (ih _).2 st hsome
    | response st0 =>
      by_cases h2 : 200 ≤ st0 ∧ st0 < 300
      · constructor
        · intro hnone
          simp only [run_attempts, hs, h2, if_true] at hnone
          cases hnone
        · intro st hsome
          simp only [run_attempts, hs, h2, if_true] at hsome ⊢
          simp [mark_job_end, mark_job_start]
      · constructor
        · intro hnone
          simp only [run_attempts, hs, h2, if_false] at hnone ⊢
          rw [(ih _).1 hnone, hfailstep]
          simp only [List.length_cons]
          push_cast
          ring
        · intro st hsome
          simp only [run_attempts, hs, h2, if_false] at hsome ⊢
          exact (ih _).2 st hsome

/-- Concrete node used for the C1 counterexample: two raw addresses and no
tunnel URL. -/
def nodeTwoAddr : NodeSnapshot :=
  { node_id := "n1", cloudflare_url := none, ipv4 := some "10.0.0.5"
    ipv6 := some "2001:db8::1", port := 11434 }

/-- Fresh counters for the C1 counterexample. -/
def countersZero : NodeCounters :=
  { active_jobs := 0, failure_count := 0, status := "online" }

/-- C1 counterexample: one `dispatch_to_node` call on a node with two
available strategies, both failing at the transport level, increments
`failure_count` by two — more than the single failure per dispatch call the
claim allows. -/
theorem C1_two_failures_per_dispatch_cex :
    (dispatch_to_node nodeTwoAddr countersZero
        (fun _ => AttemptOutcome.transportError)).1.failure_count = 2 ∧
    ¬ ((dispatch_to_node nodeTwoAddr countersZero
        (fun _ => AttemptOutcome.transportError)).1.failure_count ≤
          countersZero.failure_count + 1) := by
  constructor <;> decide

/-- C1 amended: `active_jobs` accounting is balanced per attempt (a
dispatch call restores a non-negative counter), but `failure_count` grows
by one per failed strategy attempt — a call in which every strategy fails
adds the number of attempted strategies — and a successful attempt resets
it to zero. -/
theorem C1_failure_and_job_accounting (n : NodeSnapshot) (c : NodeCounters)
    (outcome : Strategy → AttemptOutcome) (hc : 0 ≤ c.active_jobs) :
    (dispatch_to_node n c outcome).1.active_jobs = c.active_jobs ∧
    ((dispatch_to_node n c outcome).2.1 = none →
      (dispatch_to_node n c outcome).1.failure_count =
        c.failure_count + (dispatch_to_node n c outcome).2.2.length) ∧
    (∀ st, (dispatch_to_node n c outcome).2.1 = some st →
      (dispatch_to_node n c outcome).1.failure_count = 0) := by
  refine ⟨?_, ?_, ?_⟩
  · exact run_attempts_active_balanced outcome (connection_strategies n) c hc
  · exact (run_attempts_failures outcome (connection_strategies n) c).1
  · exact (run_attempts_failures outcome (connection_strategies n) c).2

/-- Witness for the amended C1 at the concrete two-address node: the
all-fail dispatch leaves `active_jobs` at zero and counts one failure per
attempted strategy. -/
theorem C1_failure_and_job_accounting_witness :
    (dispatch_to_node nodeTwoAddr countersZero
        (fun _ => AttemptOutcome.transportError)).1.active_jobs = 0 ∧
    (dispatch_to_node nodeTwoAddr countersZero
        (fun _ => AttemptOutcome.transportError)).1.failure_count =
      0 + (dispatch_to_node nodeTwoAddr countersZero
        (fun _ => AttemptOutcome.transportError)).2.2.length := by
  have h := C1_failure_and_job_accounting nodeTwoAddr countersZero
    (fun _ => AttemptOutcome.transportError) (by decide)
  exact ⟨h.1, h.2.1 (by decide)⟩

/-- Load block of a heartbeat (`LoadInfo` in
`src/backend/app/api/nodes.py`), both figures optional. -/
structure LoadInfo where
  cpu : Option Rat
  memory : Option Rat
  deriving DecidableEq

/-- Heartbeat payload accepted by the backend gateway
(`HeartbeatPayload` in `src/backend/app/api/nodes.py`). -/
structure HeartbeatPayload where
  node_id : String
  cloudflare_url : Option String
  ipv4 : Option String
  ipv6 : Option String
  port : Int
  models : List String
  load : Option LoadInfo
  deriving DecidableEq

/-- A value of a string-typed numeric hash field: `str(x)` of a float, or
the literal `"None"` produced by `str(None)` when the payload carried a
load block with that figure missing. -/
inductive NumField
  | num (q : Rat)
  | noneLiteral
  deriving DecidableEq

/-- The `cpu_load` hash field written by `register_heartbeat`
(`src/backend/app/api/nodes.py` line 80):
`str(payload.load.cpu if payload.load else 0.0)`. -/
def heartbeat_cpu_field (load : Option LoadInfo) : NumField :=
  match load with
  | none => .num 0
  | some l =>
    match l.cpu with
    | some q => .num q
    | none => .noneLiteral

/-- The `memory_load` hash field written by `register_heartbeat` (line 81). -/
def heartbeat_memory_field (load : Option LoadInfo) : NumField :=
  match load with
  | none => .num 0
  | some l =>
    match l.memory with
    | some q => .num q
    | none => .noneLiteral

/-- Python `a or b or ""` over optional strings under truthiness. -/
def pyOr2 (a b : Option String) : String :=
  if pyTruthy a then a.getD "" else if pyTruthy b then b.getD "" else ""

/-- The Redis hash `node:{node_id}` written by the backend
`register_heartbeat` (`src/backend/app/api/nodes.py` lines 73-87). -/
structure NodeHash where
  node_id : String
  cloudflare_url : String
  ipv4 : String
  ipv6 : String
  port : Int
  models : List String
  cpu_load : NumField
  memory_load : NumField
  status : String
  active_jobs : Int
  failure_count : Int
  deriving DecidableEq

/-- Embedding of the backend `register_heartbeat`
(`src/backend/app/api/nodes.py` lines 52-95): reject with 403 on a wrong
node secret; otherwise unconditionally build and store the node hash and
answer ok.  `connection_ip` is the transport peer address, used only as a
fallback for a missing self-reported IPv4. -/
def register_heartbeat (secret_ok : Bool) (p : HeartbeatPayload)
    (connection_ip : Option String) : Except Int NodeHash :=
  if !secret_ok then .error 403
  else .ok
    { node_id := p.node_id
      cloudflare_url := p.cloudflare_url.getD ""
      ipv4 := pyOr2 p.ipv4 connection_ip
      ipv6 := p.ipv6.getD ""
      port := p.port
      models := p.models
      cpu_load := heartbeat_cpu_field p.load
      memory_load := heartbeat_memory_field p.load
      status := "online"
      active_jobs := 0
      failure_count := 0 }

/-- Whether a heartbeat outcome registered a node. -/
def registered : Except Int NodeHash → Bool
  | .ok _ => true
  | .error _ => false

/-- The peer-address override in the server's `register_node`
(`src/server/app.py` lines 387-412): a truthy connection IP replaces the
self-reported address of its family — IPv6 when it contains a colon,
IPv4 otherwise. -/
def server_register_addresses (payload_ipv4 payload_ipv6 : Option String)
    (connection_ip : Option String) : Option String × Option String :=
  if pyTruthy connection_ip then
    if (connection_ip.getD "").data.contains ':' then
      (payload_ipv4, connection_ip)
    else (connection_ip, payload_ipv6)
  else (payload_ipv4, payload_ipv6)

/-- A heartbeat with no reachable address at all. -/
def emptyHeartbeat : HeartbeatPayload :=
  { node_id := "n0", cloudflare_url := none, ipv4 := none, ipv6 := none
    port := 11434, models := [], load := none }

/-- C5 counterexample: a heartbeat whose normalized tunnel URL, IPv4 and
IPv6 are all empty is not rejected with a 4xx — with a valid secret the
gateway stores the node hash (all address fields empty) and answers ok. -/
theorem C5_empty_address_registered_cex :
    register_heartbeat true emptyHeartbeat none =
      Except.ok
        { node_id := "n0", cloudflare_url := "", ipv4 := "", ipv6 := ""
          port := 11434, models := [], cpu_load := .num 0, memory_load := .num 0
          status := "online", active_jobs := 0, failure_count := 0 } := by
  rfl

/-- C5 amended: the backend heartbeat endpoint performs no reachable-address
validation: with a valid secret every payload registers (the record is
created or refreshed even with all address fields empty), and the only
failure status is 403 on a bad secret. -/
theorem C5_no_address_validation (p : HeartbeatPayload) (cip : Option String) :
    registered (register_heartbeat true p cip) = true ∧
    register_heartbeat false p cip = Except.error 403 := by
  constructor
  · simp [register_heartbeat, registered]
  · simp [register_heartbeat]

/-- A heartbeat self-reporting an IPv4 address. -/
def selfReportHeartbeat : HeartbeatPayload :=
  { node_id := "n6", cloudflare_url := none, ipv4 := some "10.0.0.1", ipv6 := none
    port := 11434, models := [], load := none }

/-- The node hash `register_heartbeat` stores for `selfReportHeartbeat`. -/
def selfReportHash : NodeHash :=
  { node_id := "n6", cloudflare_url := "", ipv4 := "10.0.0.1", ipv6 := ""
    port := 11434, models := [], cpu_load := .num 0, memory_load := .num 0
    status := "online", active_jobs := 0, failure_count := 0 }

/-- C6 counterexample: at the backend gateway the transport peer address
`10.0.0.2` does not override the self-reported `10.0.0.1` of the same
family — the stored record keeps the self-report. -/
theorem C6_self_report_wins_cex :
    register_heartbeat true selfReportHeartbeat (some "10.0.0.2") =
      Except.ok
        { node_id := "n6", cloudflare_url := "", ipv4 := "10.0.0.1", ipv6 := ""
          port := 11434, models := [], cpu_load := .num 0, memory_load := .num 0
          status := "online", active_jobs := 0, failure_count := 0 } := by
  rfl

/-- C6 amended: in the server registry (`src/server/app.py`) the peer
address does override the self-report of its family; at the backend
gateway the self-reported IPv4 takes priority, the peer address serves
only as a fallback when no truthy IPv4 was self-reported, and the stored
IPv6 never uses the peer address. -/
theorem C6_peer_address_handling :
    (∀ p4 p6 cip : Option String, pyTruthy cip = true →
      ((cip.getD "").data.contains ':' = false →
        server_register_addresses p4 p6 cip = (cip, p6)) ∧
      ((cip.getD "").data.contains ':' = true →
        server_register_addresses p4 p6 cip = (p4, cip))) ∧
    (∀ (p : HeartbeatPayload) (cip : Option String) (h : NodeHash),
      register_heartbeat true p cip = Except.ok h →
      (pyTruthy p.ipv4 = true → h.ipv4 = p.ipv4.getD "") ∧
      (pyTruthy p.ipv4 = false → pyTruthy cip = true → h.ipv4 = cip.getD "") ∧
      h.ipv6 = p.ipv6.getD "") := by
  constructor
  · intro p4 p6 cip hcip
    constructor <;> intro hcolon <;>
      simp only [server_register_addresses, hcip, hcolon, if_true, Bool.false_eq_true,
        if_false]
  · intro p cip h hreg
    simp only [register_heartbeat, Bool.not_true, Bool.false_eq_true, if_false,
      Except.ok.injEq] at hreg
    subst hreg
    refine ⟨?_, ?_, rfl⟩
    · intro h4
      simp [pyOr2, h4]
    · intro h4 hc
      simp [pyOr2, h4, hc]

/-- Witness for C6 at concrete addresses: the server-side override replaces
a self-reported IPv4 with the peer address, and the backend keeps the
self-report. -/
theorem C6_peer_address_handling_witness :
    server_register_addresses (some "1.1.1.1") none (some "2.2.2.2") =
      (some "2.2.2.2", none) ∧
    (register_heartbeat true selfReportHeartbeat (some "10.0.0.2")).toOption.map
        NodeHash.ipv4 = some "10.0.0.1" := by
  constructor
  · exact (C6_peer_address_handling.1 (some "1.1.1.1") none (some "2.2.2.2")
      (by decide)).1 (by decide)
  · have h := (C6_peer_address_handling.2 selfReportHeartbeat (some "10.0.0.2")
      selfReportHash rfl).1 (by decide)
    rw [show register_heartbeat true selfReportHeartbeat (some "10.0.0.2") =
      Except.ok selfReportHash from rfl]
    simpa [Except.toOption] using h

/-- The cpu figure used by the server selector `choose_node_ids`
(`src/server/app.py` lines 218-227): a missing load block, or a load
block without a cpu figure, ranks as `1.0`. -/
def get_cpu_load (load : Option LoadInfo) : Rat :=
  match load with
  | none => 1
  | some l =>
    match l.cpu with
    | none => 1
    | some q => q

/-- The ascending sort key of the server's `choose_node_ids`
(lines 229-235): `(active_jobs, cpu, failure_count)`. -/
def server_sort_key (active_jobs : Int) (load : Option LoadInfo)
    (failure_count : Int) : Int × Rat × Int :=
  (active_jobs, get_cpu_load load, failure_count)

/-- The backend selector's cpu figure
(`src/backend/app/services/router.py` line 159,
`float(node_data.get("cpu_load", 0.5))`): `0.5` when the hash field is
absent, the parsed number otherwise, and a `float()` error on the stored
literal `"None"`. -/
def backend_candidate_cpu : Option NumField → Except Unit Rat
  | none => .ok (1/2)
  | some (.num q) => .ok q
  | some .noneLiteral => .error ()

/-- C7 counterexample: a heartbeat that carried no load information is
stored by the backend with `cpu_load = 0.0`, and the backend candidate
selector therefore ranks that node with cpu `0.0` — the most attractive
value — not `1.0`. -/
theorem C7_backend_zero_cpu_cex :
    heartbeat_cpu_field (none : Option LoadInfo) = NumField.num 0 ∧
    backend_candidate_cpu (some (heartbeat_cpu_field (none : Option LoadInfo))) =
      Except.ok 0 ∧
    ¬ backend_candidate_cpu (some (heartbeat_cpu_field (none : Option LoadInfo))) =
      Except.ok 1 := by
  refine ⟨rfl, rfl, ?_⟩
  intro h
  simp only [heartbeat_cpu_field, backend_candidate_cpu, Except.ok.injEq] at h
  exact absurd h (by decide)

/-- C7 amended: the server selector does rank a node with a missing load,
or a load without a cpu figure, at cpu `1.0`; the backend pipeline instead
stores `cpu_load = 0.0` for a heartbeat without load (ranked most
attractive by the backend selector), uses `0.5` only when the hash field
is absent, and stores the unparsable literal `"None"` when a load block
lacks the cpu figure. -/
theorem C7_missing_load_cpu_ranking (active_jobs failure_count : Int)
    (l : LoadInfo) (q : Rat) :
    server_sort_key active_jobs none failure_count = (active_jobs, 1, failure_count) ∧
    (l.cpu = none →
      server_sort_key active_jobs (some l) failure_count =
        (active_jobs, 1, failure_count)) ∧
    (l.cpu = some q →
      server_sort_key active_jobs (some l) failure_count =
        (active_jobs, q, failure_count)) ∧
    heartbeat_cpu_field none = NumField.num 0 ∧
    backend_candidate_cpu (some (NumField.num 0)) = Except.ok 0 ∧
    backend_candidate_cpu none = Except.ok (1 / 2) ∧
    (l.cpu = none → heartbeat_cpu_field (some l) = NumField.noneLiteral) ∧
    backend_candidate_cpu (some NumField.noneLiteral) = Except.error () := by
  refine ⟨rfl, ?_, ?_, rfl, rfl, rfl, ?_, rfl⟩
  · intro hc
    simp [server_sort_key, get_cpu_load, hc]
  · intro hc
    simp [server_sort_key, get_cpu_load, hc]
  · intro hc
    simp [heartbeat_cpu_field, hc]

/-- Witness for the amended C7: a load block with both figures missing
ranks as cpu `1.0` on the server and is stored as the literal `"None"` by
the backend. -/
theorem C7_missing_load_cpu_ranking_witness :
    server_sort_key 0 (some ⟨none, none⟩) 0 = (0, 1, 0) ∧
    heartbeat_cpu_field (some ⟨none, none⟩) = NumField.noneLiteral := by
  have h := C7_missing_load_cpu_ranking 0 0 ⟨none, none⟩ 0
  exact ⟨h.2.1 rfl, h.2.2.2.2.2.2.1 rfl⟩

/-- The request fields involved in default-parameter merging
(`ChatCompletionRequest` in `src/backend/app/schemas/chat.py`). -/
structure ChatCompletionRequest where
  model : String
  temperature : Option Rat
  top_p : Option Rat
  max_tokens : Option Int
  stop : Option (List String)
  deriving DecidableEq

/-- A connector's `default_params` dictionary restricted to the four
spec-relevant keys; a missing key is `none`. -/
structure DefaultParams where
  temperature : Option Rat
  max_tokens : Option Int
  top_p : Option Rat
  stop : Option (List String)
  deriving DecidableEq

/-- Python truthiness of `defaults.get(key)` for a float value. -/
def ratTruthy : Option Rat → Bool
  | none => false
  | some q => !(decide (q = 0))

/-- Python truthiness of `defaults.get(key)` for an int value. -/
def intTruthy : Option Int → Bool
  | none => false
  | some n => !(decide (n = 0))

/-- The default-parameter merge of `chat_completions`
(`src/backend/app/api/v1/chat.py` lines 61-67): guarded by the truthiness
of `connector.default_params` (`none` models a null or empty dict), it
consults only `temperature` and `max_tokens`, filling each when absent
from the request and truthy among the defaults. -/
def apply_default_params (dp : Option DefaultParams)
    (req : ChatCompletionRequest) : ChatCompletionRequest :=
  match dp with
  | none => req
  | some d =>
    let req1 :=
      if req.temperature = none ∧ ratTruthy d.temperature then
        { req with temperature := d.temperature }
      else req
    if req1.max_tokens = none ∧ intTruthy d.max_tokens then
      { req1 with max_tokens := d.max_tokens }
    else req1

/-- A chat request specifying none of the optional parameters. -/
def reqBare : ChatCompletionRequest :=
  { model := "llama3", temperature := none, top_p := none, max_tokens := none
    stop := none }

/-- Default parameters carrying only `top_p`. -/
def dpTopP : DefaultParams :=
  { temperature := none, max_tokens := none, top_p := some (9 / 10), stop := none }

/-- C9 counterexample: a `top_p` present in `default_params` and absent
from the request is NOT filled in — the merge consults only `temperature`
and `max_tokens`. -/
theorem C9_top_p_not_filled_cex :
    (apply_default_params (some dpTopP) reqBare).top_p = none ∧
    dpTopP.top_p = some (9 / 10) :=
  ⟨rfl, rfl⟩

/-- C9 amended: the merge never touches `top_p`, `stop` or the model, a
parameter already present in the request is never overwritten, and
`temperature` / `max_tokens` are filled from `default_params` exactly when
absent from the request and truthy among the defaults. -/
theorem C9_default_params_merge (dp : Option DefaultParams)
    (req : ChatCompletionRequest) :
    (apply_default_params dp req).model = req.model ∧
    (apply_default_params dp req).top_p = req.top_p ∧
    (apply_default_params dp req).stop = req.stop ∧
    (req.temperature ≠ none →
      (apply_default_params dp req).temperature = req.temperature) ∧
    (req.max_tokens ≠ none →
      (apply_default_params dp req).max_tokens = req.max_tokens) ∧
    (∀ d, dp = some d → req.temperature = none → ratTruthy d.temperature = true →
      (apply_default_params dp req).temperature = d.temperature) ∧
    (∀ d, dp = some d → req.max_tokens = none → intTruthy d.max_tokens = true →
      (apply_default_params dp req).max_tokens = d.max_tokens) := by
  cases dp with
  | none => simp [apply_default_params]
  | some d =>
    rcases Decidable.em (req.temperature = none ∧ ratTruthy d.temperature = true) with hA | hA <;>
      rcases Decidable.em (req.max_tokens = none ∧ intTruthy d.max_tokens = true) with hB | hB
    · have e : apply_default_params (some d) req =
          { req with temperature := d.temperature, max_tokens := d.max_tokens } := by
        simp only [apply_default_params]
        rw [if_pos hA, if_pos (by simpa using hB)]
      refine ⟨by simp [e], by simp [e], by simp [e], ?_, ?_, ?_, ?_⟩
      · intro h; exact absurd hA.1 h
      · intro h; exact absurd hB.1 h
      · intro d' hd' _ _
        cases hd'
        simp [e]
      · intro d' hd' _ _
        cases hd'
        simp [e]
    · have e : apply_default_params (some d) req =
          { req with temperature := d.temperature } := by
        simp only [apply_default_params]
        rw [if_pos hA, if_neg (by simpa using hB)]
      refine ⟨by simp [e], by simp [e], by simp [e], ?_, by simp [e], ?_, ?_⟩
      · intro h; exact absurd hA.1 h
      · intro d' hd' _ _
        cases hd'
        simp [e]
      · intro d' hd' hmt htr
        cases hd'
        exact absurd ⟨hmt, htr⟩ hB
    · have e : apply_default_params (some d) req =
          { req with max_tokens := d.max_tokens } := by
        simp only [apply_default_params]
        rw [if_neg hA, if_pos hB]
      refine ⟨by simp [e], by simp [e], by simp [e], by simp [e], ?_, ?_, ?_⟩
      · intro h; exact absurd hB.1 h
      · intro d' hd' ht htr
        cases hd'
        exact absurd ⟨ht, htr⟩ hA
      · intro d' hd' _ _
        cases hd'
        simp [e]
    · have e : apply_default_params (some d) req = req := by
        simp only [apply_default_params]
        rw [if_neg hA, if_neg hB]
      refine ⟨by simp [e], by simp [e], by simp [e], by simp [e], by simp [e], ?_, ?_⟩
      · intro d' hd' ht htr
        cases hd'
        exact absurd ⟨ht, htr⟩ hA
      · intro d' hd' hmt htr
        cases hd'
        exact absurd ⟨hmt, htr⟩ hB

/-- Default parameters carrying a truthy temperature and max_tokens. -/
def dpTempTokens : DefaultParams :=
  { temperature := some 1, max_tokens := some 256, top_p := none, stop := none }

/-- Witness for the amended C9: a bare request picks up the truthy
`temperature` and `max_tokens` defaults. -/
theorem C9_default_params_merge_witness :
    (apply_default_params (some dpTempTokens) reqBare).temperature = some 1 ∧
    (apply_default_params (some dpTempTokens) reqBare).max_tokens = some 256 := by
  have h := C9_default_params_merge (some dpTempTokens) reqBare
  exact ⟨h.2.2.2.2.2.1 dpTempTokens rfl rfl (by decide),
    h.2.2.2.2.2.2 dpTempTokens rfl rfl (by decide)⟩

end OllamaConn
